import Mathlib

/-!
Shallow embedding of the code-to-FSM analyzer pipeline
(`src/code-to-fsm/analyzer.js`) and proofs about its specified behaviour.

The filesystem, the glob library and the oracle child process are modelled as
explicit function parameters; the functions below are otherwise direct
translations of the JavaScript methods of `CodeToFSMAnalyzer`.
-/

namespace RobotFSM

/-- A file record as produced by `readFiles`: workspace-relative path plus the
full file content. -/
structure FileRecord where
  path : String
  content : String
  deriving DecidableEq, Repr

/-! ## DiagramExtractor: `extractMermaidDiagram`

The method applies, in order:
1. `response.match(/stateDiagram-v2[\s\S]*?(?=\n\n|\n<fence>|$)/)` — leftmost
   occurrence of the keyword, lazy capture up to the first double line break,
   fenced-block terminator, or end of text (the regex has no `m` flag, so `$`
   matches only at the very end of the input);
2. `response.match(/<fence>mermaid\n([\s\S]*?)<fence>/)` — the interior of a
   fenced mermaid block;
3. `response.includes('stateDiagram-v2')` — the whole response verbatim;
otherwise it throws. Strings are modelled as `List Char`.
-/

/-- The canonical diagram keyword searched for by the extraction strategies. -/
def kwChars : List Char := "stateDiagram-v2".toList

/-- Whether the lookahead `(?=\n\n|\n<fence>|$)` of strategy one holds at this
suffix of the response. -/
def lookaheadHolds (s : List Char) : Bool :=
  s.isEmpty || ("\n\n".toList.isPrefixOf s) || ("\n\x60\x60\x60".toList.isPrefixOf s)

/-- Characters consumed by the lazy quantifier `[\s\S]*?` of strategy one: the
least drop after which the lookahead holds. -/
def lazyLen : List Char → Nat
  | [] => 0
  | c :: rest => if lookaheadHolds (c :: rest) then 0 else lazyLen rest + 1

/-- Strategy one of `extractMermaidDiagram`: the match of
`stateDiagram-v2[\s\S]*?(?=\n\n|\n<fence>|$)` — anchored at the leftmost
occurrence of the keyword, extended lazily until the lookahead holds. -/
def strategy1 : List Char → Option (List Char)
  | [] => none
  | c :: rest =>
    if kwChars.isPrefixOf (c :: rest) then
      some ((c :: rest).take (kwChars.length + lazyLen ((c :: rest).drop kwChars.length)))
    else strategy1 rest

/-- Opening delimiter of strategy two's fenced block. -/
def openFence : List Char := "\x60\x60\x60mermaid\n".toList

/-- Closing delimiter of strategy two's fenced block. -/
def closeFence : List Char := "\x60\x60\x60".toList

/-- Leftmost index at which `pat` occurs in the list. -/
def findSub (pat : List Char) : List Char → Option Nat
  | [] => if pat.isEmpty then some 0 else none
  | c :: rest =>
    if pat.isPrefixOf (c :: rest) then some 0
    else (findSub pat rest).map (· + 1)

/-- Strategy two of `extractMermaidDiagram`: the capture group of
`<fence>mermaid\n([\s\S]*?)<fence>` — the interior of the first fenced mermaid
block that is followed by a closing fence (the regex engine backtracks to a
later opener when no closing fence follows). -/
def strategy2 : List Char → Option (List Char)
  | [] => none
  | c :: rest =>
    if openFence.isPrefixOf (c :: rest) then
      match findSub closeFence ((c :: rest).drop openFence.length) with
      | some m => some (((c :: rest).drop openFence.length).take m)
      | none => strategy2 rest
    else strategy2 rest

/-- Whether `pat` occurs anywhere in `s`: the `includes` test of strategy
three. -/
def containsSub (pat : List Char) (s : List Char) : Bool :=
  (findSub pat s).isSome

/-- Model of `trim` on a character list: whitespace removed from both ends, as the
`trim` method of JavaScript strings. -/
def trimChars (s : List Char) : List Char :=
  ((s.dropWhile Char.isWhitespace).reverse.dropWhile Char.isWhitespace).reverse

/-- Model of JavaScript `trim` at the `String` level. -/
def jsTrim (s : String) : String := String.mk (trimChars s.toList)

/-- Shallow embedding of `extractMermaidDiagram`: the three strategies in
order, first match wins; with no match the explicit failure is thrown. -/
def extractMermaidDiagram (response : List Char) : Except String (List Char) :=
  match strategy1 response with
  | some m => Except.ok (trimChars m)
  | none =>
    match strategy2 response with
    | some g => Except.ok (trimChars g)
    | none =>
      if containsSub kwChars response then Except.ok response
      else Except.error "Could not extract Mermaid diagram from response"

/-! ## OracleInvoker: `analyzeWithClaude`

The method writes the prompt to a temporary file, spawns the oracle through a
shell with input redirection, accumulates stdout and stderr, and settles its
promise from the `close` or the `error` event. The spawn outcome is a
parameter; the observable filesystem and promise operations are recorded as a
trace. The `unlinkSync` call sits in a try/catch that ignores cleanup errors,
so the trace records the removal attempt. -/

/-- Outcome of spawning the oracle child process: either the spawn fails with
an error message (the `error` event), or the process exits with a code and the
captured streams (the `close` event). -/
inductive SpawnOutcome where
  | spawnFail (msg : String)
  | exited (code : Int) (stdout : String) (stderr : String)
  deriving DecidableEq, Repr

/-- Observable filesystem and promise actions of `analyzeWithClaude`, in the
order performed. -/
inductive Action where
  | writeTmp (name : String) (content : String)
  | spawnProc
  | unlinkTmp (name : String)
  | resolveP (value : String)
  | rejectP (msg : String)
  deriving DecidableEq, Repr

/-- Remediation hint appended to the spawn-failure message. -/
def remediationHint : String := ". Make sure \x27claude\x27 is installed and in your PATH."

/-- Error message raised when the oracle process cannot be started. -/
def spawnErrMsg (msg : String) : String :=
  ("Failed to start Claude CLI: " ++ msg) ++ remediationHint

/-- Error message raised when the oracle process exits non-zero, with the
captured stderr appended. -/
def exitErrMsg (code : Int) (stderr : String) : String :=
  ("Claude CLI exited with code " ++ toString code ++ ": ") ++ stderr

/-- One run of `analyzeWithClaude`: its action trace and the settled value of
its promise. -/
structure InvokeRun where
  actions : List Action
  result : Except String String
  deriving Repr

/-- Shallow embedding of `analyzeWithClaude`: write the prompt to the
temporary file, spawn; on the `close` event unlink the temporary file and then
reject (non-zero code, message with stderr) or resolve with the trimmed
stdout (modelled by jsTrim); on the `error` event unlink the temporary file and then reject with
the remediation message. -/
def analyzeWithClaude (tmpFile : String) (prompt : String)
    (outcome : SpawnOutcome) : InvokeRun :=
  match outcome with
  | SpawnOutcome.spawnFail msg =>
    { actions := [Action.writeTmp tmpFile prompt, Action.spawnProc,
                  Action.unlinkTmp tmpFile, Action.rejectP (spawnErrMsg msg)],
      result := Except.error (spawnErrMsg msg) }
  | SpawnOutcome.exited code out err =>
    if code ≠ 0 then
      { actions := [Action.writeTmp tmpFile prompt, Action.spawnProc,
                    Action.unlinkTmp tmpFile, Action.rejectP (exitErrMsg code err)],
        result := Except.error (exitErrMsg code err) }
    else
      { actions := [Action.writeTmp tmpFile prompt, Action.spawnProc,
                    Action.unlinkTmp tmpFile, Action.resolveP (jsTrim out)],
        result := Except.ok (jsTrim out) }

/-! ## WorkspaceScanner and ContentReader -/

/-- Environment of `scanWorkspace`: the glob library and the filesystem stat
call. `globFn pattern` stands for
`await glob(pattern, (cwd, ignore: excludePatterns, absolute: true))`, so the
exclude patterns are already applied inside it; `statFn` returns the size from
`fs.statSync`, or `none` when the stat call throws. -/
structure ScanEnv where
  globFn : String → List String
  statFn : String → Option Nat

/-- The analyzer options relevant to scanning. -/
structure ScanOptions where
  filePatterns : List String
  maxFileSize : Nat

/-- The size-filter loop of `scanWorkspace`: files are statted in order and
kept when at or below the ceiling; `fs.statSync` throwing (modelled as `none`)
aborts the loop with the error, carrying the offending path. -/
def sizeFilter (statFn : String → Option Nat) (maxFileSize : Nat) :
    List String → Except String (List String)
  | [] => Except.ok []
  | f :: rest =>
    match statFn f with
    | none => Except.error f
    | some sz =>
      match sizeFilter statFn maxFileSize rest with
      | Except.error e => Except.error e
      | Except.ok v => Except.ok (if sz ≤ maxFileSize then f :: v else v)

/-- Shallow embedding of `scanWorkspace`: per-pattern glob matches are
concatenated in pattern order, then the size filter runs over the combined
list. -/
def scanWorkspace (env : ScanEnv) (opts : ScanOptions) : Except String (List String) :=
  sizeFilter env.statFn opts.maxFileSize (opts.filePatterns.flatMap env.globFn)

/-- Shallow embedding of `readFiles`: one record per readable path, in the
original order, with the path relativized by `rel` (standing for
`path.relative(workspacePath, filePath)`); a path whose read throws (modelled
as `readFn` returning `none`) is skipped and recorded in the warning list. -/
def readFiles (readFn : String → Option String) (rel : String → String) :
    List String → List FileRecord × List String
  | [] => ([], [])
  | p :: rest =>
    let r := readFiles readFn rel rest
    match readFn p with
    | some c => ({ path := rel p, content := c } :: r.1, r.2)
    | none => (r.1, p :: r.2)

/-! ## PromptBuilder: `createAnalysisPrompt` -/

/-- Fixed tail of the analysis prompt, appended after the optional focus
directive. -/
def promptTail : String :=
  "\nLook for patterns like:\n- Explicit state variables or enums (e.g., state = \"IDLE\", State.RUNNING)\n- State transition functions (e.g., transition_to(), setState())\n- Switch/case statements on state variables\n- If/else chains checking state\n- Event handlers that change state\n- Robot control states (idle, moving, stopped, error, etc.)\n\nOutput format:\n1. First, provide a brief explanation of what state machine you found\n2. Then output ONLY the Mermaid diagram code, starting with \"stateDiagram-v2\"\n3. Use clear, descriptive state names\n4. Label transitions with the events/conditions that trigger them\n\nExample output format:\nI found a robot control state machine with 4 states...\n\nstateDiagram-v2\n    [*] --> Idle\n    Idle --> Moving: start_command\n    Moving --> Stopped: stop_command\n    Moving --> Error: sensor_fault\n    Error --> Idle: reset\n    Stopped --> [*]\n"

/-- Shallow embedding of `createAnalysisPrompt`: the file summaries joined by
the separator, the fixed task header, the optional focus directive (inserted
only for a truthy, hence non-empty, focus string), and the fixed tail. -/
def createAnalysisPrompt (files : List FileRecord) (focusArea : Option String) : String :=
  let filesSummary := String.intercalate "\n---\n\n"
    (files.map fun f =>
      "File: " ++ f.path ++ "\n\x60\x60\x60\n" ++ f.content ++ "\n\x60\x60\x60\n")
  let base :=
    "You are analyzing a codebase to extract state machine patterns. \n\nHere are the relevant files from the project:\n\n"
    ++ filesSummary
    ++ "\n\nYour task is to:\n1. Identify any state machine logic, state transitions, or finite state machine patterns\n2. Extract the states, events/transitions, and their relationships\n3. Generate a Mermaid stateDiagram-v2 that represents this state machine\n\n"
  let withFocus :=
    match focusArea with
    | some fa => if fa = "" then base else base ++ ("\nFocus specifically on: " ++ fa ++ "\n")
    | none => base
  withFocus ++ promptTail

/-! ## Main workflow: `analyze` -/

/-- Environment of `readFiles` and of the path resolution in `analyze`:
`readFn` is `fs.readFileSync` (`none` when it throws), `rel` is
`path.relative(workspacePath, _)`, and `resolvePath` is
`path.resolve(workspacePath, _)`. -/
structure ReadEnv where
  readFn : String → Option String
  rel : String → String
  resolvePath : String → String

/-- The error taxonomy of one `analyze` invocation. -/
inductive AnalyzeError where
  | scanFailed (pathName : String)
  | noFiles
  | oracleFailed (msg : String)
  | extractFailed (msg : String)
  deriving DecidableEq, Repr

/-- The value returned by a successful `analyze` invocation. -/
structure AnalysisResult where
  analysis : String
  mermaidDiagram : String
  filesAnalyzed : List String
  deriving DecidableEq, Repr

/-- One run of `analyze`: the outcome, and the file records the oracle was
invoked over (`none` when the oracle was never invoked). -/
structure AnalyzeRun where
  result : Except AnalyzeError AnalysisResult
  oracleCalledWith : Option (List FileRecord)
  deriving Repr

/-- The path-list computation at the top of `analyze`: with a truthy
`selectedFiles` the paths are resolved against the workspace root, otherwise
the workspace is scanned. -/
def analyzePaths (scanEnv : ScanEnv) (opts : ScanOptions) (re : ReadEnv)
    (selectedFiles : Option (List String)) : Except AnalyzeError (List String) :=
  match selectedFiles with
  | some sel => Except.ok (sel.map re.resolvePath)
  | none =>
    match scanWorkspace scanEnv opts with
    | Except.error p => Except.error (AnalyzeError.scanFailed p)
    | Except.ok fps => Except.ok fps

/-- The tail of `analyze` after the oracle has been invoked over the file
records: classify its reply and extract the diagram. -/
def analyzeAfterOracle (files : List FileRecord) (resp : Except String String) : AnalyzeRun :=
  match resp with
  | Except.error m =>
    { result := Except.error (AnalyzeError.oracleFailed m),
      oracleCalledWith := some files }
  | Except.ok response =>
    match extractMermaidDiagram response.toList with
    | Except.error m =>
      { result := Except.error (AnalyzeError.extractFailed m),
        oracleCalledWith := some files }
    | Except.ok d =>
      { result := Except.ok { analysis := response, mermaidDiagram := String.mk d,
                              filesAnalyzed := files.map FileRecord.path },
        oracleCalledWith := some files }

/-- Shallow embedding of `analyze`: an empty path list throws the no-files
error; the readable files are read, the prompt is built, the oracle is
invoked, and the diagram is extracted from its reply. -/
def analyze (scanEnv : ScanEnv) (opts : ScanOptions) (re : ReadEnv)
    (oracle : String → SpawnOutcome) (tmpFile : String)
    (focusArea : Option String) (selectedFiles : Option (List String)) : AnalyzeRun :=
  match analyzePaths scanEnv opts re selectedFiles with
  | Except.error e => { result := Except.error e, oracleCalledWith := none }
  | Except.ok filePaths =>
    if filePaths.length = 0 then
      { result := Except.error AnalyzeError.noFiles, oracleCalledWith := none }
    else
      let files := (readFiles re.readFn re.rel filePaths).1
      let prompt := createAnalysisPrompt files focusArea
      analyzeAfterOracle files (analyzeWithClaude tmpFile prompt (oracle prompt)).result

/-! ## ArtifactWriter: `saveResults` and `generateHTMLViewer` -/

/-- Head of the HTML viewer template of generateHTMLViewer, up to the
interpolated diagram text. -/
def viewerHead : String :=
  "<!DOCTYPE html>\n<html>\n<head>\n    <meta charset=\"UTF-8\">\n    <title>State Machine Diagram</title>\n    <script src=\"https://cdn.jsdelivr.net/npm/mermaid@10/dist/mermaid.min.js\"></script>\n    <style>\n        body \x7b\n            font-family: -apple-system, BlinkMacSystemFont, \x27Segoe UI\x27, Arial, sans-serif;\n            margin: 0;\n            padding: 20px;\n            background: linear-gradient(135deg, #667eea 0%, #764ba2 100%);\n            min-height: 100vh;\n        \x7d\n        .container \x7b\n            max-width: 100%;\n            margin: 0 auto;\n        \x7d\n        h1 \x7b\n            color: white;\n            text-align: center;\n            margin-bottom: 10px;\n            text-shadow: 2px 2px 4px rgba(0,0,0,0.3);\n        \x7d\n        .subtitle \x7b\n            color: rgba(255,255,255,0.9);\n            text-align: center;\n            margin-bottom: 30px;\n            font-size: 14px;\n        \x7d\n        .controls \x7b\n            background: white;\n            padding: 15px;\n            border-radius: 8px;\n            box-shadow: 0 4px 6px rgba(0,0,0,0.1);\n            margin-bottom: 20px;\n            display: flex;\n            justify-content: center;\n            flex-wrap: wrap;\n            gap: 10px;\n        \x7d\n        button \x7b\n            padding: 10px 20px;\n            background: #667eea;\n            color: white;\n            border: none;\n            border-radius: 6px;\n            cursor: pointer;\n            font-size: 14px;\n            font-weight: 500;\n            transition: all 0.3s ease;\n        \x7d\n        button:hover \x7b\n            background: #5568d3;\n            transform: translateY(-2px);\n            box-shadow: 0 4px 8px rgba(0,0,0,0.2);\n        \x7d\n        button:active \x7b\n            transform: translateY(0);\n        \x7d\n        #diagram-container \x7b\n            background: white;\n            padding: 30px;\n            border-radius: 12px;\n            box-shadow: 0 10px 30px rgba(0,0,0,0.2);\n            overflow: auto;\n            transition: transform 0.3s ease;\n        \x7d\n        .footer \x7b\n            text-align: center;\n            color: rgba(255,255,255,0.8);\n            margin-top: 30px;\n            font-size: 12px;\n        \x7d\n        .zoom-indicator \x7b\n            position: fixed;\n            top: 20px;\n            right: 20px;\n            background: rgba(0,0,0,0.7);\n            color: white;\n            padding: 8px 16px;\n            border-radius: 20px;\n            font-size: 14px;\n            font-weight: 500;\n            display: none;\n        \x7d\n    </style>\n</head>\n<body>\n    <div class=\"container\">\n        <h1>🤖 State Machine Diagram</h1>\n        <p class=\"subtitle\">Generated by FSM Toolkit</p>\n\n        <div class=\"controls\">\n            <button onclick=\"zoomIn()\" title=\"Zoom In\">🔍 Zoom In</button>\n            <button onclick=\"zoomOut()\" title=\"Zoom Out\">🔎 Zoom Out</button>\n            <button onclick=\"resetZoom()\" title=\"Reset Zoom\">↺ Reset</button>\n            <button onclick=\"fitToScreen()\" title=\"Fit to Screen\">⛶ Fit Screen</button>\n            <button onclick=\"downloadSVG()\" title=\"Download SVG\">💾 Download SVG</button>\n            <button onclick=\"downloadPNG()\" title=\"Download PNG\">📷 Download PNG</button>\n        </div>\n\n        <div id=\"diagram-container\">\n            <div class=\"mermaid\">\n"

/-- Tail of the HTML viewer template of generateHTMLViewer, after the
interpolated diagram text. -/
def viewerTail : String :=
  "\n            </div>\n        </div>\n\n        <div class=\"footer\">\n            Generated with FSM Toolkit • Powered by Mermaid.js\n        </div>\n    </div>\n\n    <div id=\"zoom-indicator\" class=\"zoom-indicator\"></div>\n\n    <script>\n        mermaid.initialize(\x7b\n            startOnLoad: true,\n            theme: \x27default\x27,\n            securityLevel: \x27loose\x27,\n            flowchart: \x7b\n                useMaxWidth: false\n            \x7d\n        \x7d);\n\n        let currentZoom = 1;\n        const container = document.getElementById(\x27diagram-container\x27);\n        const zoomIndicator = document.getElementById(\x27zoom-indicator\x27);\n\n        function showZoomIndicator() \x7b\n            zoomIndicator.textContent = Math.round(currentZoom * 100) + \x27%\x27;\n            zoomIndicator.style.display = \x27block\x27;\n            setTimeout(() => \x7b\n                zoomIndicator.style.display = \x27none\x27;\n            \x7d, 1000);\n        \x7d\n\n        function zoomIn() \x7b\n            currentZoom = Math.min(3, currentZoom + 0.1);\n            applyZoom();\n        \x7d\n\n        function zoomOut() \x7b\n            currentZoom = Math.max(0.3, currentZoom - 0.1);\n            applyZoom();\n        \x7d\n\n        function resetZoom() \x7b\n            currentZoom = 1;\n            applyZoom();\n        \x7d\n\n        function fitToScreen() \x7b\n            const svg = container.querySelector(\x27svg\x27);\n            if (svg) \x7b\n                const containerWidth = container.clientWidth;\n                const svgWidth = svg.getBBox().width;\n                currentZoom = (containerWidth - 60) / svgWidth;\n                applyZoom();\n            \x7d\n        \x7d\n\n        function applyZoom() \x7b\n            container.style.transform = \x60scale($\x7bcurrentZoom\x7d)\x60;\n            container.style.transformOrigin = \x27top left\x27;\n            showZoomIndicator();\n        \x7d\n\n        function downloadSVG() \x7b\n            const svg = container.querySelector(\x27svg\x27);\n            if (svg) \x7b\n                const serializer = new XMLSerializer();\n                const svgString = serializer.serializeToString(svg);\n                const blob = new Blob([svgString], \x7b type: \x27image/svg+xml\x27 \x7d);\n                const url = URL.createObjectURL(blob);\n                const a = document.createElement(\x27a\x27);\n                a.href = url;\n                a.download = \x27state-machine.svg\x27;\n                a.click();\n                URL.revokeObjectURL(url);\n            \x7d\n        \x7d\n\n        function downloadPNG() \x7b\n            const svg = container.querySelector(\x27svg\x27);\n            if (svg) \x7b\n                const canvas = document.createElement(\x27canvas\x27);\n                const ctx = canvas.getContext(\x272d\x27);\n                const svgData = new XMLSerializer().serializeToString(svg);\n                const img = new Image();\n\n                img.onload = function() \x7b\n                    canvas.width = img.width * 2;\n                    canvas.height = img.height * 2;\n                    ctx.fillStyle = \x27white\x27;\n                    ctx.fillRect(0, 0, canvas.width, canvas.height);\n                    ctx.drawImage(img, 0, 0, canvas.width, canvas.height);\n\n                    canvas.toBlob(function(blob) \x7b\n                        const url = URL.createObjectURL(blob);\n                        const a = document.createElement(\x27a\x27);\n                        a.href = url;\n                        a.download = \x27state-machine.png\x27;\n                        a.click();\n                        URL.revokeObjectURL(url);\n                    \x7d);\n                \x7d;\n\n                img.src = \x27data:image/svg+xml;base64,\x27 + btoa(unescape(encodeURIComponent(svgData)));\n            \x7d\n        \x7d\n\n        // Keyboard shortcuts\n        document.addEventListener(\x27keydown\x27, (e) => \x7b\n            if (e.ctrlKey || e.metaKey) \x7b\n                if (e.key === \x27=\x27) \x7b\n                    e.preventDefault();\n                    zoomIn();\n                \x7d else if (e.key === \x27-\x27) \x7b\n                    e.preventDefault();\n                    zoomOut();\n                \x7d else if (e.key === \x270\x27) \x7b\n                    e.preventDefault();\n                    resetZoom();\n                \x7d\n            \x7d\n        \x7d);\n\n        // Auto-fit on load\n        window.addEventListener(\x27load\x27, () => \x7b\n            setTimeout(fitToScreen, 500);\n        \x7d);\n    </script>\n</body>\n</html>"

/-- Content of the HTML viewer document: the template with the diagram text
interpolated. -/
def viewerHtml (mermaidDiagram : String) : String :=
  viewerHead ++ mermaidDiagram ++ viewerTail

/-- Model of `path.join(outputDir, name)` for the artifact paths. -/
def joinPath (dir name : String) : String := dir ++ "/" ++ name

/-- Path of the saved Mermaid diagram. -/
def mermaidPathOf (outputDir : String) : String := joinPath outputDir "state-machine.mmd"

/-- Path of the saved combined report. -/
def analysisPathOf (outputDir : String) : String := joinPath outputDir "analysis.txt"

/-- Path of the saved HTML viewer. -/
def viewerPathOf (outputDir : String) : String := joinPath outputDir "view-diagram.html"

/-- Content of the combined report: the analyzed file paths, then the full raw
analysis. -/
def fullAnalysisOf (results : AnalysisResult) : String :=
  ("Files Analyzed:\n" ++ String.intercalate "\n" results.filesAnalyzed ++ "\n\n")
  ++ ("Analysis:\n" ++ results.analysis)

/-- Observable filesystem actions of `saveResults`, in the order attempted. -/
inductive FsAction where
  | mkdirRec (dir : String)
  | writeFile (target : String) (content : String)
  deriving DecidableEq, Repr

/-- Environment of `saveResults`: whether the output directory exists, whether
`fs.mkdirSync` succeeds, and whether `fs.writeFileSync` succeeds per target
path (`false` meaning the call throws). -/
structure SaveEnv where
  outDirExists : Bool
  mkdirOk : Bool
  writeOk : String → Bool

/-- One run of `saveResults`: the attempted filesystem actions in order, and
either the returned artifact paths or the path of the failing operation. -/
structure SaveRun where
  actions : List FsAction
  result : Except String (List String)
  deriving Repr

/-- Shallow embedding of `saveResults`: create the output directory
recursively when missing, then write the diagram, then the combined report,
then the HTML viewer; a throwing call aborts the method at once, so later
writes are not attempted. -/
def saveResults (env : SaveEnv) (results : AnalysisResult) (outputDir : String) : SaveRun :=
  let pre : List FsAction :=
    if env.outDirExists then [] else [FsAction.mkdirRec outputDir]
  if !env.outDirExists && !env.mkdirOk then
    { actions := pre, result := Except.error outputDir }
  else
    let w1 := FsAction.writeFile (mermaidPathOf outputDir) results.mermaidDiagram
    if !(env.writeOk (mermaidPathOf outputDir)) then
      { actions := pre ++ [w1], result := Except.error (mermaidPathOf outputDir) }
    else
      let w2 := FsAction.writeFile (analysisPathOf outputDir) (fullAnalysisOf results)
      if !(env.writeOk (analysisPathOf outputDir)) then
        { actions := pre ++ [w1, w2], result := Except.error (analysisPathOf outputDir) }
      else
        let w3 := FsAction.writeFile (viewerPathOf outputDir) (viewerHtml results.mermaidDiagram)
        if !(env.writeOk (viewerPathOf outputDir)) then
          { actions := pre ++ [w1, w2, w3], result := Except.error (viewerPathOf outputDir) }
        else
          { actions := pre ++ [w1, w2, w3],
            result := Except.ok [mermaidPathOf outputDir, analysisPathOf outputDir,
                                 viewerPathOf outputDir] }


/-! ## Theorems -/

/-- C8: for every list of requested paths, `readFiles` returns one record per
readable path, in the original relative order, with relativized paths; each
unreadable path produces exactly one warning and is skipped, and the number of
records is the number of requested paths minus the number of warnings. -/
theorem readFiles_total_under_partial_failure
    (readFn : String → Option String) (rel : String → String) (paths : List String) :
    (readFiles readFn rel paths).1
      = paths.filterMap (fun p => (readFn p).map fun c =>
          ({ path := rel p, content := c } : FileRecord))
    ∧ (readFiles readFn rel paths).2 = paths.filter (fun p => (readFn p).isNone)
    ∧ (readFiles readFn rel paths).1.length
      = paths.length - (readFiles readFn rel paths).2.length := by
  have key : (readFiles readFn rel paths).1
      = paths.filterMap (fun p => (readFn p).map fun c =>
          ({ path := rel p, content := c } : FileRecord))
    ∧ (readFiles readFn rel paths).2 = paths.filter (fun p => (readFn p).isNone) := by
    induction paths with
    | nil => exact ⟨rfl, rfl⟩
    | cons p rest ih =>
      cases h : readFn p <;>
        simp [readFiles, h, ih.1, ih.2, List.filterMap_cons, List.filter_cons]
  have hlen : ∀ l : List String,
      (l.filterMap (fun p => (readFn p).map fun c =>
          ({ path := rel p, content := c } : FileRecord))).length
        + (l.filter (fun p => (readFn p).isNone)).length = l.length := by
    intro l
    induction l with
    | nil => rfl
    | cons p rest ih =>
      cases h : readFn p <;> simp [List.filterMap_cons, List.filter_cons, h] <;> omega
  refine ⟨key.1, key.2, ?_⟩
  rw [key.1, key.2]
  have := hlen paths
  omega

/-- Whether a promise action settles the promise. -/
def settles : Action → Bool
  | Action.resolveP _ => true
  | Action.rejectP _ => true
  | _ => false

/-- Whether the removal of the temporary file is attempted before any action
that settles the promise. -/
def cleanupBeforeSettle (tmp : String) : List Action → Bool
  | [] => true
  | a :: rest =>
    if settles a then false
    else if a = Action.unlinkTmp tmp then true
    else cleanupBeforeSettle tmp rest

/-- C3: on every exit path of `analyzeWithClaude` — normal zero-exit
completion, non-zero exit, and spawn failure alike — the temporary prompt file
is removed, and the removal happens before the promise settles. -/
theorem analyzeWithClaude_cleanup_every_path
    (tmp prompt : String) (o : SpawnOutcome) :
    Action.unlinkTmp tmp ∈ (analyzeWithClaude tmp prompt o).actions
    ∧ cleanupBeforeSettle tmp (analyzeWithClaude tmp prompt o).actions = true := by
  cases o with
  | spawnFail msg => exact ⟨by simp [analyzeWithClaude], by simp [analyzeWithClaude, cleanupBeforeSettle, settles]⟩
  | exited code out err =>
    by_cases hc : code = 0 <;>
      simp [analyzeWithClaude, hc, cleanupBeforeSettle, settles]

/-- C4: `analyzeWithClaude` classifies its outcome exactly: a spawn failure is
rejected with the oracle-unavailable message carrying the remediation hint; a
non-zero exit is rejected with the execution-failed message carrying the
captured stderr; a zero exit resolves with the trimmed stdout, even when that
trimmed stdout is empty. -/
theorem analyzeWithClaude_classification (tmp prompt : String) :
    (∀ msg, (analyzeWithClaude tmp prompt (SpawnOutcome.spawnFail msg)).result
        = Except.error (spawnErrMsg msg)
      ∧ ∃ pre, spawnErrMsg msg = pre ++ remediationHint)
    ∧ (∀ (code : Int) out err, code ≠ 0 →
        (analyzeWithClaude tmp prompt (SpawnOutcome.exited code out err)).result
          = Except.error (exitErrMsg code err)
        ∧ ∃ pre, exitErrMsg code err = pre ++ err)
    ∧ (∀ out err, (analyzeWithClaude tmp prompt (SpawnOutcome.exited 0 out err)).result
        = Except.ok (jsTrim out)) := by
  refine ⟨fun msg => ⟨rfl, ⟨_, rfl⟩⟩, fun code out err hc => ⟨?_, ⟨_, rfl⟩⟩,
    fun out err => by simp [analyzeWithClaude]⟩
  simp [analyzeWithClaude, hc]

/-- Witness for C4 at concrete outcomes: exit code 1 with stderr boom, exit
code 0 with trimmable stdout, and exit code 0 with whitespace-only stdout. -/
theorem analyzeWithClaude_classification_witness :
    (analyzeWithClaude "/tmp/p.txt" "prompt" (SpawnOutcome.exited 1 "" "boom")).result
      = Except.error (exitErrMsg 1 "boom")
    ∧ (analyzeWithClaude "/tmp/p.txt" "prompt" (SpawnOutcome.exited 0 "  hi  " "")).result
      = Except.ok "hi"
    ∧ (analyzeWithClaude "/tmp/p.txt" "prompt" (SpawnOutcome.exited 0 "   " "")).result
      = Except.ok "" := by
  refine ⟨((analyzeWithClaude_classification "/tmp/p.txt" "prompt").2.1 1 "" "boom"
    (by decide)).1, ?_, ?_⟩
  · exact ((analyzeWithClaude_classification "/tmp/p.txt" "prompt").2.2 "  hi  " "").trans rfl
  · exact ((analyzeWithClaude_classification "/tmp/p.txt" "prompt").2.2 "   " "").trans rfl


/-- C9: `saveResults` creates the output directory recursively when it is
missing, then attempts the diagram write, the report write, and the viewer
write in that order; a failing write surfaces immediately and none of the
remaining writes is attempted. Stated for runs where directory creation
itself succeeds. -/
theorem saveResults_order_and_abort (env : SaveEnv) (results : AnalysisResult)
    (outputDir : String) (hmk : env.mkdirOk = true) :
    (env.writeOk (mermaidPathOf outputDir) = false →
      (saveResults env results outputDir).actions
        = (if env.outDirExists then ([] : List FsAction)
           else [FsAction.mkdirRec outputDir])
          ++ [FsAction.writeFile (mermaidPathOf outputDir) results.mermaidDiagram]
      ∧ (saveResults env results outputDir).result
        = Except.error (mermaidPathOf outputDir))
    ∧ (env.writeOk (mermaidPathOf outputDir) = true →
       env.writeOk (analysisPathOf outputDir) = false →
      (saveResults env results outputDir).actions
        = (if env.outDirExists then ([] : List FsAction)
           else [FsAction.mkdirRec outputDir])
          ++ [FsAction.writeFile (mermaidPathOf outputDir) results.mermaidDiagram,
              FsAction.writeFile (analysisPathOf outputDir) (fullAnalysisOf results)]
      ∧ (saveResults env results outputDir).result
        = Except.error (analysisPathOf outputDir))
    ∧ (env.writeOk (mermaidPathOf outputDir) = true →
       env.writeOk (analysisPathOf outputDir) = true →
       env.writeOk (viewerPathOf outputDir) = false →
      (saveResults env results outputDir).actions
        = (if env.outDirExists then ([] : List FsAction)
           else [FsAction.mkdirRec outputDir])
          ++ [FsAction.writeFile (mermaidPathOf outputDir) results.mermaidDiagram,
              FsAction.writeFile (analysisPathOf outputDir) (fullAnalysisOf results),
              FsAction.writeFile (viewerPathOf outputDir) (viewerHtml results.mermaidDiagram)]
      ∧ (saveResults env results outputDir).result
        = Except.error (viewerPathOf outputDir))
    ∧ (env.writeOk (mermaidPathOf outputDir) = true →
       env.writeOk (analysisPathOf outputDir) = true →
       env.writeOk (viewerPathOf outputDir) = true →
      (saveResults env results outputDir).actions
        = (if env.outDirExists then ([] : List FsAction)
           else [FsAction.mkdirRec outputDir])
          ++ [FsAction.writeFile (mermaidPathOf outputDir) results.mermaidDiagram,
              FsAction.writeFile (analysisPathOf outputDir) (fullAnalysisOf results),
              FsAction.writeFile (viewerPathOf outputDir) (viewerHtml results.mermaidDiagram)]
      ∧ (saveResults env results outputDir).result
        = Except.ok [mermaidPathOf outputDir, analysisPathOf outputDir,
                     viewerPathOf outputDir]) := by
  refine ⟨fun h1 => ?_, fun h1 h2 => ?_, fun h1 h2 h3 => ?_, fun h1 h2 h3 => ?_⟩ <;>
    simp [saveResults, hmk, h1] <;> simp [h2] <;> simp [h3]

/-- Witness for C9: with every filesystem call succeeding and the output
directory missing, all four actions are attempted in order and the three
artifact paths are returned. -/
theorem saveResults_order_and_abort_witness :
    (saveResults ⟨false, true, fun _ => true⟩
        ⟨"analysis text", "diagram text", ["f.py"]⟩ "out").actions
      = [FsAction.mkdirRec "out",
         FsAction.writeFile (mermaidPathOf "out") "diagram text",
         FsAction.writeFile (analysisPathOf "out")
           (fullAnalysisOf ⟨"analysis text", "diagram text", ["f.py"]⟩),
         FsAction.writeFile (viewerPathOf "out") (viewerHtml "diagram text")]
    ∧ (saveResults ⟨false, true, fun _ => true⟩
        ⟨"analysis text", "diagram text", ["f.py"]⟩ "out").result
      = Except.ok [mermaidPathOf "out", analysisPathOf "out", viewerPathOf "out"] := by
  have h := (saveResults_order_and_abort ⟨false, true, fun _ => true⟩
    ⟨"analysis text", "diagram text", ["f.py"]⟩ "out" rfl).2.2.2 rfl rfl rfl
  exact ⟨h.1.trans (by simp), h.2⟩

/-- C10: with an explicit selected-file list, `analyze` resolves the paths
against the workspace root and hands them directly to file reading: the run
is independent of the scan environment, the include patterns and the size
ceiling; the oracle receives exactly the records of the readable selected
files; and on success `filesAnalyzed` is exactly their relativized paths — so
an explicitly selected file that is oversized or matches an exclude pattern
is still read and included. -/
theorem analyze_selected_files_bypass_scan
    (scanEnvA scanEnvB : ScanEnv) (optsA optsB : ScanOptions) (re : ReadEnv)
    (oracle : String → SpawnOutcome) (tmp : String) (focus : Option String)
    (sel : List String) (hne : sel ≠ []) :
    analyze scanEnvA optsA re oracle tmp focus (some sel)
      = analyze scanEnvB optsB re oracle tmp focus (some sel)
    ∧ (analyze scanEnvA optsA re oracle tmp focus (some sel)).oracleCalledWith
      = some (readFiles re.readFn re.rel (sel.map re.resolvePath)).1
    ∧ (∀ r, (analyze scanEnvA optsA re oracle tmp focus (some sel)).result = Except.ok r →
        r.filesAnalyzed
          = ((readFiles re.readFn re.rel (sel.map re.resolvePath)).1).map FileRecord.path) := by
  have hl : ¬ ((sel.map re.resolvePath).length = 0) := by
    simp only [List.length_map, List.length_eq_zero]
    exact hne
  have hcall : ∀ (files : List FileRecord) (resp : Except String String),
      (analyzeAfterOracle files resp).oracleCalledWith = some files := by
    intro files resp
    cases resp with
    | error m => rfl
    | ok response =>
      dsimp only [analyzeAfterOracle]
      cases extractMermaidDiagram response.toList <;> rfl
  have hfa : ∀ (files : List FileRecord) (resp : Except String String) (r : AnalysisResult),
      (analyzeAfterOracle files resp).result = Except.ok r →
      r.filesAnalyzed = files.map FileRecord.path := by
    intro files resp r hr
    cases resp with
    | error m => cases hr
    | ok response =>
      revert hr
      dsimp only [analyzeAfterOracle]
      cases extractMermaidDiagram response.toList with
      | error m => intro hr; exact (Except.noConfusion hr)
      | ok d =>
        intro hr
        injection hr with h
        rw [← h]
  refine ⟨rfl, ?_, ?_⟩
  · simp only [analyze, analyzePaths]
    rw [if_neg hl]
    exact hcall _ _
  · intro r hr
    simp only [analyze, analyzePaths] at hr
    rw [if_neg hl] at hr
    exact hfa _ _ r hr

/-- Witness for C10: a single selected file is read and reported even though
the scan environment would never have produced it and it exceeds the size
ceiling. -/
theorem analyze_selected_files_bypass_scan_witness :
    (analyze ⟨fun _ => [], fun _ => none⟩ ⟨["**/*.py"], 0⟩
        ⟨fun _ => some "content", fun p => p, fun p => "/w/" ++ p⟩
        (fun _ => SpawnOutcome.exited 0 "stateDiagram-v2\nA --> B" "") "/tmp/t"
        none (some ["big.js"])).oracleCalledWith
      = some [{ path := "/w/big.js", content := "content" }] := by
  have h := (analyze_selected_files_bypass_scan ⟨fun _ => [], fun _ => none⟩
    ⟨fun _ => [], fun _ => none⟩ ⟨["**/*.py"], 0⟩ ⟨["**/*.py"], 0⟩
    ⟨fun _ => some "content", fun p => p, fun p => "/w/" ++ p⟩
    (fun _ => SpawnOutcome.exited 0 "stateDiagram-v2\nA --> B" "") "/tmp/t"
    none ["big.js"] (by simp)).2.1
  exact h.trans (by rfl)


/-- C1 counterexample: the emptiness check of `analyze` runs on the path list
before reading, so with one matching but unreadable file the oracle is
invoked over an empty record set and the produced result has an empty
`filesAnalyzed` — refuting the claim that the oracle is never invoked with an
empty set of file records. -/
theorem analyze_oracle_invoked_with_empty_records :
    (analyze ⟨fun _ => ["/w/f.py"], fun _ => some 10⟩ ⟨["**/*.py"], 100000⟩
        ⟨fun _ => none, fun p => p, fun p => p⟩
        (fun _ => SpawnOutcome.exited 0 "stateDiagram-v2\nA --> B" "") "/tmp/t"
        none none).oracleCalledWith = some []
    ∧ (analyze ⟨fun _ => ["/w/f.py"], fun _ => some 10⟩ ⟨["**/*.py"], 100000⟩
        ⟨fun _ => none, fun p => p, fun p => p⟩
        (fun _ => SpawnOutcome.exited 0 "stateDiagram-v2\nA --> B" "") "/tmp/t"
        none none).result
      = Except.ok { analysis := "stateDiagram-v2\nA --> B",
                    mermaidDiagram := "stateDiagram-v2\nA --> B",
                    filesAnalyzed := [] } := by
  exact ⟨rfl, rfl⟩

/-- C1 amended: when the resolved path list of `analyze` is empty — after
scanning and filtering, or from an explicit empty selection — the invocation
fails with the no-files error and the oracle is never invoked; the emptiness
check is on the path list before reading, not on the record set. -/
theorem analyze_empty_path_list_rejected
    (scanEnv : ScanEnv) (opts : ScanOptions) (re : ReadEnv)
    (oracle : String → SpawnOutcome) (tmp : String) (focus : Option String)
    (sel : Option (List String))
    (h : analyzePaths scanEnv opts re sel = Except.ok []) :
    (analyze scanEnv opts re oracle tmp focus sel).result
      = Except.error AnalyzeError.noFiles
    ∧ (analyze scanEnv opts re oracle tmp focus sel).oracleCalledWith = none := by
  constructor <;> simp [analyze, h]

/-- Witness for the amended C1 at a workspace whose scan finds nothing. -/
theorem analyze_empty_path_list_rejected_witness :
    (analyze ⟨fun _ => [], fun _ => none⟩ ⟨["**/*.js"], 100000⟩
        ⟨fun _ => none, fun p => p, fun p => p⟩
        (fun _ => SpawnOutcome.exited 0 "" "") "/tmp/t" none none).result
      = Except.error AnalyzeError.noFiles := by
  exact (analyze_empty_path_list_rejected ⟨fun _ => [], fun _ => none⟩
    ⟨["**/*.js"], 100000⟩ ⟨fun _ => none, fun p => p, fun p => p⟩
    (fun _ => SpawnOutcome.exited 0 "" "") "/tmp/t" none none rfl).1

/-- C6 counterexample: a candidate file whose stat fails makes the whole scan
error out instead of being excluded — the second, stattable candidate is never
reported. -/
theorem scanWorkspace_stat_failure_aborts :
    scanWorkspace ⟨fun _ => ["/w/a.py", "/w/b.py"],
        fun f => if f = "/w/b.py" then some 10 else none⟩
      ⟨["**/*.py"], 100000⟩ = Except.error "/w/a.py"
    ∧ scanWorkspace ⟨fun _ => ["/w/a.py", "/w/b.py"],
        fun f => if f = "/w/b.py" then some 10 else none⟩
      ⟨["**/*.py"], 100000⟩ ≠ Except.ok ["/w/b.py"] := by
  have h : scanWorkspace ⟨fun _ => ["/w/a.py", "/w/b.py"],
      fun f => if f = "/w/b.py" then some 10 else none⟩
    ⟨["**/*.py"], 100000⟩ = Except.error "/w/a.py" := rfl
  exact ⟨h, by rw [h]; intro hc; exact Except.noConfusion hc⟩

/-- The size-filter loop aborts with the first candidate whose stat fails,
after the earlier candidates statted successfully. -/
theorem sizeFilter_error_of_stat_none (statFn : String → Option Nat) (maxFileSize : Nat)
    (l1 l2 : List String) (f : String)
    (h1 : ∀ g ∈ l1, (statFn g).isSome) (h2 : statFn f = none) :
    sizeFilter statFn maxFileSize (l1 ++ f :: l2) = Except.error f := by
  induction l1 with
  | nil => simp [sizeFilter, h2]
  | cons g gs ih =>
    obtain ⟨sz, hsz⟩ := Option.isSome_iff_exists.mp (h1 g (by simp))
    have ihh := ih (fun x hx => h1 x (by simp [hx]))
    simp [sizeFilter, hsz, ihh]

/-- C6 amended: a candidate file whose stat cannot be read is not excluded;
the stat failure aborts the scan of the remaining candidates and the whole
scan errors with that failure. -/
theorem scanWorkspace_stat_failure_amended (env : ScanEnv) (opts : ScanOptions)
    (l1 l2 : List String) (f : String)
    (hc : opts.filePatterns.flatMap env.globFn = l1 ++ f :: l2)
    (h1 : ∀ g ∈ l1, (env.statFn g).isSome) (h2 : env.statFn f = none) :
    scanWorkspace env opts = Except.error f := by
  show sizeFilter env.statFn opts.maxFileSize (opts.filePatterns.flatMap env.globFn)
    = Except.error f
  rw [hc]
  exact sizeFilter_error_of_stat_none _ _ _ _ _ h1 h2

/-- Witness for the amended C6: the first candidate stats fine, the second
fails, and the scan errors with the second. -/
theorem scanWorkspace_stat_failure_amended_witness :
    scanWorkspace ⟨fun _ => ["/w/ok.py", "/w/bad.py"],
        fun f => if f = "/w/ok.py" then some 5 else none⟩
      ⟨["**/*.py"], 100⟩ = Except.error "/w/bad.py" := by
  exact scanWorkspace_stat_failure_amended _ _ ["/w/ok.py"] [] "/w/bad.py" rfl
    (by decide) (by decide)

/-- C7 counterexample: a file matching two include patterns appears twice in
the scan result — the result is not duplicate-free. -/
theorem scanWorkspace_duplicate_matches :
    scanWorkspace ⟨fun _ => ["/w/a.js"], fun _ => some 1⟩ ⟨["**/*.js", "a.js"], 100⟩
      = Except.ok ["/w/a.js", "/w/a.js"]
    ∧ ¬ (["/w/a.js", "/w/a.js"] : List String).Nodup := by
  exact ⟨rfl, by simp⟩

/-- The size-filter loop keeps every candidate whose stat succeeds and whose
size is at or below the ceiling, preserving order and multiplicity. -/
theorem sizeFilter_eq_filter_of_stat_some (statFn : String → Option Nat)
    (maxFileSize : Nat) (l : List String) (h : ∀ f ∈ l, (statFn f).isSome) :
    sizeFilter statFn maxFileSize l = Except.ok (l.filter fun f =>
      match statFn f with
      | some sz => decide (sz ≤ maxFileSize)
      | none => false) := by
  induction l with
  | nil => rfl
  | cons f rest ih =>
    obtain ⟨sz, hsz⟩ := Option.isSome_iff_exists.mp (h f (by simp))
    have ihh := ih (fun x hx => h x (by simp [hx]))
    by_cases hle : sz ≤ maxFileSize <;>
      simp [sizeFilter, hsz, ihh, List.filter_cons, hle]

/-- C7 amended: the scan result is the concatenation of the per-pattern glob
matches restricted by the size filter, in order and with multiplicity — so a
file matching more than one include pattern appears once per matching
pattern, and duplicates are possible. -/
theorem scanWorkspace_keeps_multiplicity (env : ScanEnv) (opts : ScanOptions)
    (h : ∀ f ∈ opts.filePatterns.flatMap env.globFn, (env.statFn f).isSome) :
    scanWorkspace env opts
      = Except.ok ((opts.filePatterns.flatMap env.globFn).filter fun f =>
          match env.statFn f with
          | some sz => decide (sz ≤ opts.maxFileSize)
          | none => false) := by
  exact sizeFilter_eq_filter_of_stat_some _ _ _ h

/-- Witness for the amended C7: two overlapping include patterns yield the
same file twice. -/
theorem scanWorkspace_keeps_multiplicity_witness :
    scanWorkspace ⟨fun _ => ["/w/x.js"], fun _ => some 5⟩ ⟨["*.js", "x.js"], 10⟩
      = Except.ok ["/w/x.js", "/w/x.js"] := by
  have h := scanWorkspace_keeps_multiplicity ⟨fun _ => ["/w/x.js"], fun _ => some 5⟩
    ⟨["*.js", "x.js"], 10⟩ (by decide)
  exact h.trans (by rfl)


/-- Recombination of a dropped initial segment of a take with the matching
drop. -/
theorem takeDrop_append (l : List Char) (k n : Nat) (hk : k ≤ n) :
    (l.take n).drop k ++ l.drop n = l.drop k := by
  rw [List.drop_take]
  have h1 : List.drop n l = List.drop (n - k) (List.drop k l) := by
    rw [List.drop_drop]
    congr 1
    omega
  rw [h1, List.take_append_drop]

/-- After dropping `lazyLen s` characters the lookahead holds. -/
theorem lazyLen_lookahead : ∀ s : List Char, lookaheadHolds (s.drop (lazyLen s)) = true := by
  intro s
  induction s with
  | nil => rfl
  | cons c rest ih =>
    cases h : lookaheadHolds (c :: rest) with
    | true => simp [lazyLen, h]
    | false => simpa [lazyLen, h] using ih

/-- Minimality of `lazyLen`: before it, the lookahead fails everywhere. -/
theorem lazyLen_min : ∀ (s : List Char) (k : Nat), k < lazyLen s →
    lookaheadHolds (s.drop k) = false := by
  intro s
  induction s with
  | nil => intro k hk; simp [lazyLen] at hk
  | cons c rest ih =>
    intro k hk
    cases h : lookaheadHolds (c :: rest) with
    | true => simp [lazyLen, h] at hk
    | false =>
      simp only [lazyLen, h, Bool.false_eq_true, if_false] at hk
      cases k with
      | zero => simpa using h
      | succ j =>
        simp only [List.drop_succ_cons]
        exact ih j (by omega)

/-- Characterization of strategy one: a match starts with the keyword —
wherever in the text the keyword occurs, line start or not — and extends
until the first position, at or after the end of the keyword, where a double
line break, a fenced terminator, or the end of text follows. -/
theorem strategy1_spec (s m : List Char) (h : strategy1 s = some m) :
    kwChars.isPrefixOf m = true
    ∧ ∃ p t, s = p ++ m ++ t
        ∧ lookaheadHolds t = true
        ∧ ∀ k, kwChars.length ≤ k → k < m.length →
            lookaheadHolds (m.drop k ++ t) = false := by
  induction s with
  | nil => cases h
  | cons c rest ih =>
    cases hp : kwChars.isPrefixOf (c :: rest) with
    | false =>
      have h' : strategy1 rest = some m := by simpa [strategy1, hp] using h
      obtain ⟨hkw, p, t, hs, hla, hmin⟩ := ih h'
      exact ⟨hkw, c :: p, t, by simp [hs], hla, hmin⟩
    | true =>
      have hm : m = (c :: rest).take
          (kwChars.length + lazyLen ((c :: rest).drop kwChars.length)) := by
        have := h
        simp [strategy1, hp] at this
        exact this.symm
      constructor
      · have hkw : kwChars = (c :: rest).take kwChars.length :=
          List.prefix_iff_eq_take.mp ( List.isPrefixOf_iff_prefix.mp hp)
        have htk : m.take kwChars.length = kwChars := by
          rw [hm, List.take_take, min_eq_left (Nat.le_add_right _ _)]
          exact hkw.symm
        exact List.isPrefixOf_iff_prefix.mpr (List.prefix_iff_eq_take.mpr htk.symm)
      · refine ⟨[], (c :: rest).drop
          (kwChars.length + lazyLen ((c :: rest).drop kwChars.length)), ?_, ?_, ?_⟩
        · simp [hm, List.take_append_drop]
        · have hdd : (c :: rest).drop
              (kwChars.length + lazyLen ((c :: rest).drop kwChars.length))
              = ((c :: rest).drop kwChars.length).drop
                  (lazyLen ((c :: rest).drop kwChars.length)) := by
            rw [List.drop_drop]
          rw [hdd]
          exact lazyLen_lookahead ((c :: rest).drop kwChars.length)
        · intro k hk1 hk2
          have hmlen : m.length ≤ kwChars.length
              + lazyLen ((c :: rest).drop kwChars.length) := by
            rw [hm, List.length_take]
            exact min_le_left _ _
          have hkN : k ≤ kwChars.length
              + lazyLen ((c :: rest).drop kwChars.length) := le_trans (le_of_lt hk2) hmlen
          have hsplit : m.drop k ++ (c :: rest).drop
              (kwChars.length + lazyLen ((c :: rest).drop kwChars.length))
              = (c :: rest).drop k := by
            rw [hm]
            exact takeDrop_append (c :: rest) k _ hkN
          rw [hsplit]
          have hdk : (c :: rest).drop k
              = ((c :: rest).drop kwChars.length).drop (k - kwChars.length) := by
            rw [List.drop_drop]
            congr 1
            omega
          rw [hdk]
          exact lazyLen_min ((c :: rest).drop kwChars.length) (k - kwChars.length)
            (by omega)

/-- Whether the keyword occurs at the start of a line (the start of the text,
or right after a newline). -/
def kwAtLineStartAux : List Char → Bool
  | [] => false
  | c :: rest => (decide (c = '\n') && kwChars.isPrefixOf rest) || kwAtLineStartAux rest

/-- Whether the keyword occurs at the start of some line of the text. -/
def kwAtLineStart (s : List Char) : Bool :=
  kwChars.isPrefixOf s || kwAtLineStartAux s

/-- C2 counterexample: strategy one matches the keyword in the middle of a
line — in a reply where the keyword never occurs at the start of a line the
first strategy still matches, refuting the claim that it matches the keyword
only at the start of a line. -/
theorem strategy1_matches_mid_line :
    (strategy1 "use stateDiagram-v2 now".toList).isSome = true
    ∧ kwAtLineStart "use stateDiagram-v2 now".toList = false := ⟨rfl, rfl⟩

/-- C2 amended: strategy one matches the keyword at any position in the text,
not only at the start of a line, and captures from the leftmost occurrence
until a double line break, a fenced-block terminator, or end of text;
whenever it matches, its trimmed capture is what `extractMermaidDiagram`
returns, in preference to the fenced-block strategy. -/
theorem extract_strategy1_any_position (s m : List Char) (h : strategy1 s = some m) :
    kwChars.isPrefixOf m = true
    ∧ (∃ p t, s = p ++ m ++ t
        ∧ lookaheadHolds t = true
        ∧ ∀ k, kwChars.length ≤ k → k < m.length →
            lookaheadHolds (m.drop k ++ t) = false)
    ∧ extractMermaidDiagram s = Except.ok (trimChars m) := by
  obtain ⟨h1, h2⟩ := strategy1_spec s m h
  exact ⟨h1, h2, by simp [extractMermaidDiagram, h]⟩

/-- Witness for the amended C2: a reply with prose, a keyword block and a
trailing paragraph; the keyword block is captured and returned trimmed. -/
theorem extract_strategy1_any_position_witness :
    kwChars.isPrefixOf "stateDiagram-v2\nA --> B".toList = true
    ∧ (∃ p t, "Intro\n\nstateDiagram-v2\nA --> B\n\nEnd".toList
          = p ++ "stateDiagram-v2\nA --> B".toList ++ t
        ∧ lookaheadHolds t = true
        ∧ ∀ k, kwChars.length ≤ k → k < ("stateDiagram-v2\nA --> B".toList).length →
            lookaheadHolds (("stateDiagram-v2\nA --> B".toList).drop k ++ t) = false)
    ∧ extractMermaidDiagram "Intro\n\nstateDiagram-v2\nA --> B\n\nEnd".toList
        = Except.ok (trimChars "stateDiagram-v2\nA --> B".toList) := by
  exact extract_strategy1_any_position _ _ rfl

/-- A trimmed character list is empty only when every character was
whitespace. -/
theorem all_ws_of_trimChars_nil (m : List Char) (h : trimChars m = []) :
    ∀ x ∈ m, x.isWhitespace = true := by
  unfold trimChars at h
  rw [List.reverse_eq_nil_iff] at h
  have h2 : ∀ x ∈ (m.dropWhile Char.isWhitespace).reverse, x.isWhitespace = true :=
    List.dropWhile_eq_nil_iff.mp h
  intro x hx
  rw [← List.takeWhile_append_dropWhile (p := Char.isWhitespace) (l := m)] at hx
  rcases List.mem_append.mp hx with h3 | h3
  · exact List.mem_takeWhile_imp h3
  · exact h2 x (List.mem_reverse.mpr h3)

/-- A capture that starts with the keyword does not trim to the empty list. -/
theorem trimChars_ne_nil_of_keyword (m : List Char) (h : kwChars.isPrefixOf m = true) :
    trimChars m ≠ [] := by
  obtain ⟨t, ht⟩ := List.isPrefixOf_iff_prefix.mp h
  intro hnil
  have hmem : 's' ∈ m := by
    rw [← ht]
    exact List.mem_append.mpr (Or.inl (by decide))
  exact absurd (all_ws_of_trimChars_nil m hnil 's' hmem) (by decide)

/-- C5 counterexample: a reply consisting of an empty fenced mermaid block is
extracted as the empty diagram, with no error — refuting the claim that
extraction never silently yields an empty diagram string. -/
theorem extractMermaidDiagram_silently_empty :
    extractMermaidDiagram "\x60\x60\x60mermaid\n\x60\x60\x60".toList
      = Except.ok ([] : List Char) := rfl

/-- C5 amended: `extractMermaidDiagram` either fails with the explicit
could-not-extract error or returns the matched text; the result is non-empty
except when it comes from the fenced-block strategy applied to a block whose
interior trims to nothing — only that case silently yields an empty
diagram. -/
theorem extract_ok_empty_only_from_fenced (s d : List Char)
    (h : extractMermaidDiagram s = Except.ok d) (hd : d = []) :
    strategy1 s = none ∧ ∃ g, strategy2 s = some g ∧ trimChars g = [] := by
  revert h
  cases h1 : strategy1 s with
  | some m =>
    intro h
    simp [extractMermaidDiagram, h1] at h
    exact absurd (h.trans hd) (trimChars_ne_nil_of_keyword m (strategy1_spec s m h1).1)
  | none =>
    cases h2 : strategy2 s with
    | some g =>
      intro h
      simp [extractMermaidDiagram, h1, h2] at h
      exact ⟨rfl, g, rfl, h.trans hd⟩
    | none =>
      cases h3 : containsSub kwChars s with
      | true =>
        intro h
        simp [extractMermaidDiagram, h1, h2, h3] at h
        subst hd
        rw [h] at h3
        exact absurd h3 (by decide)
      | false =>
        intro h
        simp [extractMermaidDiagram, h1, h2, h3] at h

/-- Witness for the amended C5: a fenced mermaid block whose interior is
whitespace only. -/
theorem extract_ok_empty_only_from_fenced_witness :
    strategy1 "\x60\x60\x60mermaid\n  \n\x60\x60\x60".toList = none
    ∧ ∃ g, strategy2 "\x60\x60\x60mermaid\n  \n\x60\x60\x60".toList = some g
        ∧ trimChars g = [] := by
  exact extract_ok_empty_only_from_fenced _ _ rfl rfl

end RobotFSM
